import Mathlib

/-!
Shallow embedding of the boiler simulation module of `boilerSimulation`
(the TypeScript calculation pipeline: `furnace → heatTransfer →
steamGeneration → generateFlueGases → boiler`).

JavaScript numbers are modelled as exact rationals (`ℚ`); every arithmetic
operation in the source is one of `+`, `-`, `*`, `/` on numeric literals
that are exact decimal fractions, so the rational model agrees with the
source wherever the rounding of IEEE-754 doubles is not itself at issue.
Division is total with junk value `0` at a zero denominator (the source's
division is likewise total, with junk value `Infinity`/`NaN`).

The string-keyed maps `composition` and `emissions` only ever hold the
literal objects `{CO2, H2O, O2, N2}` and `{CO, NOx}` built by
`calculateFlueGasComposition` and `calculateEmissions`, so they are
modelled as records with exactly those fields.
-/

namespace BoilerSim

structure Fuel where
  type : String
  quantity : ℚ
  heatContent : ℚ
deriving DecidableEq, Repr

structure Water where
  quantity : ℚ
  temperature : ℚ
deriving DecidableEq, Repr

structure Air where
  quantity : ℚ
  temperature : ℚ
deriving DecidableEq, Repr

structure ControlSettings where
  pressure : ℚ
  temperature : ℚ
deriving DecidableEq, Repr

structure Steam where
  flowRate : ℚ
  pressure : ℚ
  temperature : ℚ
deriving DecidableEq, Repr

/-- The flue-gas composition map `{ CO2, H2O, O2, N2 }` (percentages). -/
structure GasComposition where
  CO2 : ℚ
  H2O : ℚ
  O2 : ℚ
  N2 : ℚ
deriving DecidableEq, Repr

/-- The emissions map `{ CO, NOx }`. -/
structure Emissions where
  CO : ℚ
  NOx : ℚ
deriving DecidableEq, Repr

structure FlueGases where
  volume : ℚ
  temp : ℚ
  composition : GasComposition
deriving DecidableEq, Repr

structure BoilerOutput where
  steam : Steam
  flueGases : FlueGases
  wasteHeat : ℚ
  emissions : Emissions
deriving DecidableEq, Repr

structure MinMax where
  min : ℚ
  max : ℚ
deriving DecidableEq, Repr

structure FurnaceDesign where
  corrugated : Bool
  type : String
deriving DecidableEq, Repr

structure TubeConfig where
  numTubes : ℚ
  diameter : ℚ
  length : ℚ
deriving DecidableEq, Repr

structure Refractory where
  thermalConductivity : ℚ
  maxTemp : ℚ
deriving DecidableEq, Repr

structure BoilerParams where
  efficiency : ℚ
  horsepower : MinMax
  steamOutput : MinMax
  pressure : MinMax
  furnaceDesign : FurnaceDesign
  tubeConfig : TubeConfig
  refractory : Refractory
  heatTransferCoeff : ℚ
deriving DecidableEq, Repr

def defaultParams : BoilerParams :=
  { efficiency := 0.9
    horsepower := { min := 50, max := 2500 }
    steamOutput := { min := 1725, max := 86250 }
    pressure := { min := 15, max := 350 }
    furnaceDesign := { corrugated := true, type := "wet-back" }
    tubeConfig := { numTubes := 100, diameter := 2, length := 10 }
    refractory := { thermalConductivity := 0.5, maxTemp := 1200 }
    heatTransferCoeff := 50 }

/-- `Math.PI` is the IEEE-754 double nearest π, an exact rational. -/
def mathPI : ℚ := 884279719003555 / 281474976710656

def calculateFlueGasVolume (_fuel : Fuel) (air : Air) : ℚ :=
  air.quantity * 0.9

def calculateFlueGasComposition (_fuel : Fuel) (_air : Air) : GasComposition :=
  { CO2 := 10, H2O := 15, O2 := 5, N2 := 70 }

def calculateTubeSurfaceArea (tubeConfig : TubeConfig) : ℚ :=
  mathPI * tubeConfig.diameter * tubeConfig.length * tubeConfig.numTubes

def calculateSteamTemp (pressure : ℚ) : ℚ :=
  212 + pressure * 1.7

def getLatentHeat (pressure : ℚ) : ℚ :=
  970 - pressure * 0.5

def calculateSensibleHeat (inletTemp steamTemp : ℚ) : ℚ :=
  steamTemp - (inletTemp * 1.8 + 32)

def calculateEmissions (_fuelType : String) : Emissions :=
  { CO := 100, NOx := 50 }

/-- Result record of `furnace`: `{ energy, flueGases }`. -/
structure FurnaceResult where
  energy : ℚ
  flueGases : FlueGases
deriving DecidableEq, Repr

def furnace (fuel : Fuel) (air : Air) : FurnaceResult :=
  let energy := fuel.quantity * fuel.heatContent
  let flueGasTemp : ℚ := 1100
  let flueGasVolume := calculateFlueGasVolume fuel air
  let flueGasComposition := calculateFlueGasComposition fuel air
  { energy
    flueGases := { volume := flueGasVolume, temp := flueGasTemp, composition := flueGasComposition } }

/-- The flue-gas record returned by `heatTransfer` has only `volume` and `temp`. -/
structure CooledFlueGases where
  volume : ℚ
  temp : ℚ
deriving DecidableEq, Repr

/-- Result record of `heatTransfer`: `{ heatTransferred, flueGases }`. -/
structure HeatTransferResult where
  heatTransferred : ℚ
  flueGases : CooledFlueGases
deriving DecidableEq, Repr

def heatTransfer (combustionEnergy : ℚ) (flueGases : FlueGases) (_water : Water)
    (tubeConfig : TubeConfig) (_heatTransferCoeff : ℚ)
    (furnaceDesign : FurnaceDesign) : HeatTransferResult :=
  let _tubeSurfaceArea := calculateTubeSurfaceArea tubeConfig
  let _furnaceFactor : ℚ := if furnaceDesign.corrugated then 1.1 else 1.0
  let _wetBackFactor : ℚ := if furnaceDesign.type = "wet-back" then 1.05 else 1.0
  let heatTransferred := combustionEnergy * 0.9
  let flueGasExitTemp : ℚ := 180
  { heatTransferred
    flueGases := { volume := flueGases.volume, temp := flueGasExitTemp } }

def steamGeneration (heatTransferred : ℚ) (water : Water)
    (controlSettings : ControlSettings) (_pressure : ℚ) : Steam :=
  let targetPressure := controlSettings.pressure
  let steamTemp := calculateSteamTemp targetPressure
  let latentHeat := getLatentHeat targetPressure
  let sensibleHeat := calculateSensibleHeat water.temperature steamTemp
  let totalHeatPerLb := sensibleHeat + latentHeat
  let steamOutput := heatTransferred / totalHeatPerLb
  { flowRate := steamOutput
    pressure := targetPressure
    temperature := steamTemp }

/-- Result record of `generateFlueGases`: `{ flueGases, emissions }`. -/
structure FlueGasesResult where
  flueGases : FlueGases
  emissions : Emissions
deriving DecidableEq, Repr

def generateFlueGases (_combustionEnergy : ℚ) (fuel : Fuel) (_air : Air)
    (flueGasesFromFurnace : FlueGases) : FlueGasesResult :=
  let flueGasVolume := flueGasesFromFurnace.volume
  let flueGasTemp : ℚ := 180
  let composition := flueGasesFromFurnace.composition
  let emissions := calculateEmissions fuel.type
  { flueGases := { volume := flueGasVolume, temp := flueGasTemp, composition }
    emissions }

def boiler (fuel : Fuel) (water : Water) (air : Air) (_electricity : ℚ)
    (controlSettings : ControlSettings)
    (params : BoilerParams := defaultParams) : BoilerOutput :=
  let fr := furnace fuel air
  let energy := fr.energy
  let initialFlueGases := fr.flueGases
  let ht := heatTransfer energy initialFlueGases water
    params.tubeConfig params.heatTransferCoeff params.furnaceDesign
  let heatTransferred := ht.heatTransferred
  let _cooledFlueGases := ht.flueGases
  let steam := steamGeneration heatTransferred water controlSettings params.pressure.min
  let gfr := generateFlueGases energy fuel air initialFlueGases
  let flueGases := gfr.flueGases
  let emissions := gfr.emissions
  let _usableHeat := energy * params.efficiency
  let wasteHeat := energy * (1 - params.efficiency)
  { steam, flueGases, wasteHeat, emissions }

end BoilerSim

namespace BoilerSim

/-- C1: For the Scenario A inputs — fuel `{type := "wood", quantity := 1000,
heatContent := 8000}`, water `{quantity := 34500, temperature := 20}`, air
`{quantity := 12000, temperature := 20}`, electricity `50`, control settings
`{pressure := 200, temperature := 382}` and the default params — `simulate`
(the `boiler` function) returns exactly: steam flow rate `7200000 / 1354`
(≈ 5316.10), steam pressure `200`, steam temperature `552`, waste heat
`800000`, flue-gas volume `10800`, flue-gas temperature `180`, composition
`{CO2 := 10, H2O := 15, O2 := 5, N2 := 70}` and emissions
`{CO := 100, NOx := 50}`. -/
theorem C1_scenarioA :
    boiler { type := "wood", quantity := 1000, heatContent := 8000 }
        { quantity := 34500, temperature := 20 }
        { quantity := 12000, temperature := 20 } 50
        { pressure := 200, temperature := 382 } defaultParams =
      { steam := { flowRate := 7200000 / 1354, pressure := 200, temperature := 552 }
        flueGases := { volume := 10800, temp := 180
                       composition := { CO2 := 10, H2O := 15, O2 := 5, N2 := 70 } }
        wasteHeat := 800000
        emissions := { CO := 100, NOx := 50 } } := by
  norm_num [boiler, furnace, heatTransfer, steamGeneration, generateFlueGases,
    calculateFlueGasVolume, calculateFlueGasComposition, calculateSteamTemp,
    getLatentHeat, calculateSensibleHeat, calculateEmissions, defaultParams]

/-- C2: For every input, the `Steam` record returned by `simulate` satisfies
`steam.pressure = controlSettings.pressure`,
`steam.temperature = 212 + controlSettings.pressure * 1.7`, and
`steam.flowRate = heatTransferred / totalHeatPerUnit` where
`heatTransferred = 0.9 * fuel.quantity * fuel.heatContent` and
`totalHeatPerUnit = (steam.temperature - (water.temperature * 1.8 + 32)) +
(970 - controlSettings.pressure * 0.5)`. -/
theorem C2_steam_contract (f : Fuel) (w : Water) (a : Air) (e : ℚ)
    (cs : ControlSettings) (p : BoilerParams) :
    (boiler f w a e cs p).steam =
      { flowRate := 0.9 * f.quantity * f.heatContent /
          ((212 + cs.pressure * 1.7 - (w.temperature * 1.8 + 32)) + (970 - cs.pressure * 0.5))
        pressure := cs.pressure
        temperature := 212 + cs.pressure * 1.7 } := by
  simp only [boiler, furnace, heatTransfer, steamGeneration, calculateSteamTemp,
    getLatentHeat, calculateSensibleHeat, Steam.mk.injEq, eq_self_iff_true,
    and_true, true_and]
  ring

/-- C3: For every input and every `params.efficiency ∈ [0,1]`, `simulate`
returns `wasteHeat = fuel.quantity * fuel.heatContent * (1 - params.efficiency)`,
while the heat used for steam generation, computed by `heatTransfer` on the
furnace output exactly as in `boiler`, is
`heatTransferred = fuel.quantity * fuel.heatContent * 0.9` — a fixed 0.9
transfer factor whose formula does not involve `params.efficiency`. -/
theorem C3_efficiency_split (f : Fuel) (w : Water) (a : Air) (e : ℚ)
    (cs : ControlSettings) (p : BoilerParams)
    (h0 : 0 ≤ p.efficiency) (h1 : p.efficiency ≤ 1) :
    (boiler f w a e cs p).wasteHeat = f.quantity * f.heatContent * (1 - p.efficiency) ∧
    (heatTransfer (f.quantity * f.heatContent) (furnace f a).flueGases w
        p.tubeConfig p.heatTransferCoeff p.furnaceDesign).heatTransferred =
      f.quantity * f.heatContent * 0.9 :=
  ⟨rfl, rfl⟩

/-- C3, witness: the efficiency split evaluated at the Scenario A input with
the default params (`efficiency = 0.9 ∈ [0,1]`). -/
theorem C3_efficiency_split_witness :
    (0 : ℚ) ≤ defaultParams.efficiency ∧ defaultParams.efficiency ≤ 1 ∧
    ((boiler { type := "wood", quantity := 1000, heatContent := 8000 }
        { quantity := 34500, temperature := 20 }
        { quantity := 12000, temperature := 20 } 50
        { pressure := 200, temperature := 382 } defaultParams).wasteHeat =
      1000 * 8000 * (1 - defaultParams.efficiency) ∧
    (heatTransfer (1000 * 8000)
        (furnace { type := "wood", quantity := 1000, heatContent := 8000 }
          { quantity := 12000, temperature := 20 }).flueGases
        { quantity := 34500, temperature := 20 }
        defaultParams.tubeConfig defaultParams.heatTransferCoeff
        defaultParams.furnaceDesign).heatTransferred = 1000 * 8000 * 0.9) :=
  ⟨by norm_num [defaultParams], by norm_num [defaultParams],
    C3_efficiency_split _ _ _ _ _ _ (by norm_num [defaultParams])
      (by norm_num [defaultParams])⟩

/-- C4: For every input (every fuel type, fuel quantity, air record, water
record, control settings and params), the `FlueGases` record in `simulate`'s
output has `volume = air.quantity * 0.9`, `temp = 180` and composition
`{CO2 := 10, H2O := 15, O2 := 5, N2 := 70}`, and the emissions map is
`{CO := 100, NOx := 50}`. -/
theorem C4_fixed_flueGases_emissions (f : Fuel) (w : Water) (a : Air) (e : ℚ)
    (cs : ControlSettings) (p : BoilerParams) :
    (boiler f w a e cs p).flueGases =
      { volume := a.quantity * 0.9, temp := 180
        composition := { CO2 := 10, H2O := 15, O2 := 5, N2 := 70 } } ∧
    (boiler f w a e cs p).emissions = { CO := 100, NOx := 50 } :=
  ⟨rfl, rfl⟩

/-- C5: For all rational `fuel.quantity` and `fuel.heatContent`, doubling
either one (all other arguments of `simulate` held fixed) doubles
`energy = fuel.quantity * fuel.heatContent`, and therefore doubles both
`wasteHeat` and (hence) `steam.flowRate` in the output. -/
theorem C5_energy_linearity (f : Fuel) (w : Water) (a : Air) (e : ℚ)
    (cs : ControlSettings) (p : BoilerParams) :
    ((furnace { f with quantity := 2 * f.quantity } a).energy = 2 * (furnace f a).energy ∧
      (furnace { f with heatContent := 2 * f.heatContent } a).energy =
        2 * (furnace f a).energy) ∧
    ((boiler { f with quantity := 2 * f.quantity } w a e cs p).wasteHeat =
        2 * (boiler f w a e cs p).wasteHeat ∧
      (boiler { f with heatContent := 2 * f.heatContent } w a e cs p).wasteHeat =
        2 * (boiler f w a e cs p).wasteHeat) ∧
    ((boiler { f with quantity := 2 * f.quantity } w a e cs p).steam.flowRate =
        2 * (boiler f w a e cs p).steam.flowRate ∧
      (boiler { f with heatContent := 2 * f.heatContent } w a e cs p).steam.flowRate =
        2 * (boiler f w a e cs p).steam.flowRate) := by
  simp only [boiler, furnace, heatTransfer, steamGeneration, calculateSteamTemp,
    getLatentHeat, calculateSensibleHeat]
  refine ⟨⟨by ring, by ring⟩, ⟨by ring, by ring⟩, ⟨by ring, by ring⟩⟩

end BoilerSim

namespace BoilerSim

/-- C6: For every pair of calls to `simulate` whose arguments differ only in
`params.tubeConfig`, `params.furnaceDesign`, `params.heatTransferCoeff`,
`params.refractory`, `params.horsepower`, `params.steamOutput` and/or
`params.pressure.max`, the two returned `BoilerOutput` records are equal in
every field: replacing all seven of those fields of any `params` record by
arbitrary values leaves the output unchanged. -/
theorem C6_dead_params_no_effect (f : Fuel) (w : Water) (a : Air) (e : ℚ)
    (cs : ControlSettings) (p : BoilerParams) (hp so : MinMax) (pmax : ℚ)
    (fd : FurnaceDesign) (tc : TubeConfig) (rf : Refractory) (htc : ℚ) :
    boiler f w a e cs
        { p with horsepower := hp, steamOutput := so,
                 pressure := { min := p.pressure.min, max := pmax },
                 furnaceDesign := fd, tubeConfig := tc, refractory := rf,
                 heatTransferCoeff := htc } =
      boiler f w a e cs p := rfl

/-- C7, counterexample: at the explicit Scenario A input, changing only
`params.pressure.min` from the default `15` to `999` leaves the returned
`BoilerOutput` unchanged — contradicting the claim that `params.pressure.min`
affects `simulate`'s results (`boiler` passes it to `steamGeneration`'s
`pressure` parameter, which the body never reads). -/
theorem C7_counterexample :
    boiler { type := "wood", quantity := 1000, heatContent := 8000 }
        { quantity := 34500, temperature := 20 }
        { quantity := 12000, temperature := 20 } 50
        { pressure := 200, temperature := 382 }
        { defaultParams with pressure := { min := 999, max := 350 } } =
      boiler { type := "wood", quantity := 1000, heatContent := 8000 }
        { quantity := 34500, temperature := 20 }
        { quantity := 12000, temperature := 20 } 50
        { pressure := 200, temperature := 382 } defaultParams := rfl

/-- C7, amended: `params.pressure.min` does not affect `simulate`'s results —
every pair of calls whose arguments differ only in the value of
`params.pressure.min` returns equal `BoilerOutput` records. -/
theorem C7_pressure_min_no_effect (f : Fuel) (w : Water) (a : Air) (e : ℚ)
    (cs : ControlSettings) (p : BoilerParams) (m m' : ℚ) :
    boiler f w a e cs { p with pressure := { min := m, max := p.pressure.max } } =
      boiler f w a e cs { p with pressure := { min := m', max := p.pressure.max } } := rfl

/-- C8: `simulate` is a total function: for every input — including inputs
where `totalHeatPerUnit = sensibleHeat + latentHeat` is zero — every stage is
defined and the pipeline returns the closed-form record below, whose flow
rate is literally the division `heatTransferred / totalHeatPerUnit`. The
division is always performed; at a zero denominator it yields the model's
degenerate junk value (`0` in `ℚ`, standing for the source's `Infinity`)
rather than raising an error. -/
theorem C8_totality (f : Fuel) (w : Water) (a : Air) (e : ℚ)
    (cs : ControlSettings) (p : BoilerParams) :
    boiler f w a e cs p =
      { steam :=
          { flowRate := f.quantity * f.heatContent * 0.9 /
              (calculateSensibleHeat w.temperature (calculateSteamTemp cs.pressure) +
                getLatentHeat cs.pressure)
            pressure := cs.pressure
            temperature := calculateSteamTemp cs.pressure }
        flueGases := { volume := a.quantity * 0.9, temp := 180
                       composition := { CO2 := 10, H2O := 15, O2 := 5, N2 := 70 } }
        wasteHeat := f.quantity * f.heatContent * (1 - p.efficiency)
        emissions := { CO := 100, NOx := 50 } } := rfl

/-- C9, counterexample: at the explicit input with `fuel.quantity = -1` (all
other arguments as in Scenario A), the returned `wasteHeat` is negative, so
not every numeric output field is non-negative for every input. -/
theorem C9_counterexample :
    (boiler { type := "wood", quantity := -1, heatContent := 8000 }
        { quantity := 34500, temperature := 20 }
        { quantity := 12000, temperature := 20 } 50
        { pressure := 200, temperature := 382 } defaultParams).wasteHeat < 0 := by
  norm_num [boiler, furnace, heatTransfer, steamGeneration, generateFlueGases,
    calculateFlueGasVolume, calculateSteamTemp, getLatentHeat, calculateSensibleHeat,
    defaultParams]

/-- C9, amended: every numeric field of the `BoilerOutput` returned by
`simulate` is a (finite) rational by construction; and every numeric field is
non-negative provided the inputs are non-negative and compatible:
`0 ≤ fuel.quantity`, `0 ≤ fuel.heatContent`, `0 ≤ air.quantity`,
`0 ≤ controlSettings.pressure`, `params.efficiency ≤ 1`, and the steam-heat
denominator `sensibleHeat + latentHeat` is non-negative. -/
theorem C9_nonneg_amended (f : Fuel) (w : Water) (a : Air) (e : ℚ)
    (cs : ControlSettings) (p : BoilerParams)
    (hq : 0 ≤ f.quantity) (hh : 0 ≤ f.heatContent) (ha : 0 ≤ a.quantity)
    (hp : 0 ≤ cs.pressure) (he : p.efficiency ≤ 1)
    (hd : 0 ≤ calculateSensibleHeat w.temperature (calculateSteamTemp cs.pressure) +
      getLatentHeat cs.pressure) :
    (0 ≤ (boiler f w a e cs p).steam.flowRate ∧
      0 ≤ (boiler f w a e cs p).steam.pressure ∧
      0 ≤ (boiler f w a e cs p).steam.temperature) ∧
    (0 ≤ (boiler f w a e cs p).flueGases.volume ∧
      0 ≤ (boiler f w a e cs p).flueGases.temp ∧
      0 ≤ (boiler f w a e cs p).flueGases.composition.CO2 ∧
      0 ≤ (boiler f w a e cs p).flueGases.composition.H2O ∧
      0 ≤ (boiler f w a e cs p).flueGases.composition.O2 ∧
      0 ≤ (boiler f w a e cs p).flueGases.composition.N2) ∧
    0 ≤ (boiler f w a e cs p).wasteHeat ∧
    (0 ≤ (boiler f w a e cs p).emissions.CO ∧
      0 ≤ (boiler f w a e cs p).emissions.NOx) := by
  have hE : (0 : ℚ) ≤ f.quantity * f.heatContent := mul_nonneg hq hh
  have hfr : (0 : ℚ) ≤ (boiler f w a e cs p).steam.flowRate := by
    show (0 : ℚ) ≤ f.quantity * f.heatContent * 0.9 /
      (calculateSensibleHeat w.temperature (calculateSteamTemp cs.pressure) +
        getLatentHeat cs.pressure)
    exact div_nonneg (mul_nonneg hE (by norm_num)) hd
  have hwh : (0 : ℚ) ≤ (boiler f w a e cs p).wasteHeat := by
    show (0 : ℚ) ≤ f.quantity * f.heatContent * (1 - p.efficiency)
    exact mul_nonneg hE (by linarith)
  refine ⟨⟨hfr, hp, ?_⟩, ⟨?_, ?_, ?_, ?_, ?_, ?_⟩, hwh, ?_, ?_⟩
  · show (0 : ℚ) ≤ 212 + cs.pressure * 1.7
    linarith
  · show (0 : ℚ) ≤ a.quantity * 0.9
    linarith
  · show (0 : ℚ) ≤ (180 : ℚ)
    norm_num
  · show (0 : ℚ) ≤ (10 : ℚ)
    norm_num
  · show (0 : ℚ) ≤ (15 : ℚ)
    norm_num
  · show (0 : ℚ) ≤ (5 : ℚ)
    norm_num
  · show (0 : ℚ) ≤ (70 : ℚ)
    norm_num
  · show (0 : ℚ) ≤ (100 : ℚ)
    norm_num
  · show (0 : ℚ) ≤ (50 : ℚ)
    norm_num

/-- C10: For every pair of calls to `simulate` whose arguments differ only in
`electricity`, `air.temperature`, `water.quantity` and/or
`controlSettings.temperature`, the two returned `BoilerOutput` records are
equal in every field: replacing those four inputs of any call by arbitrary
values leaves the output unchanged. -/
theorem C10_dead_inputs_no_effect (f : Fuel) (w : Water) (wq : ℚ) (a : Air)
    (at' : ℚ) (e e' : ℚ) (cs : ControlSettings) (ct : ℚ) (p : BoilerParams) :
    boiler f { w with quantity := wq } { a with temperature := at' } e'
        { cs with temperature := ct } p =
      boiler f w a e cs p := rfl

end BoilerSim

namespace BoilerSim

/-- C9, witness: the non-negativity of every output field evaluated at the
Scenario A input, whose arguments satisfy all the hypotheses. -/
theorem C9_nonneg_amended_witness :
    ((0 : ℚ) ≤ 1000 ∧ (0 : ℚ) ≤ 8000 ∧ (0 : ℚ) ≤ 12000 ∧ (0 : ℚ) ≤ 200 ∧
      defaultParams.efficiency ≤ 1 ∧
      (0 : ℚ) ≤ calculateSensibleHeat 20 (calculateSteamTemp 200) + getLatentHeat 200) ∧
    ((0 ≤ (boiler { type := "wood", quantity := 1000, heatContent := 8000 }
          { quantity := 34500, temperature := 20 }
          { quantity := 12000, temperature := 20 } 50
          { pressure := 200, temperature := 382 } defaultParams).steam.flowRate ∧
      0 ≤ (boiler { type := "wood", quantity := 1000, heatContent := 8000 }
          { quantity := 34500, temperature := 20 }
          { quantity := 12000, temperature := 20 } 50
          { pressure := 200, temperature := 382 } defaultParams).steam.pressure ∧
      0 ≤ (boiler { type := "wood", quantity := 1000, heatContent := 8000 }
          { quantity := 34500, temperature := 20 }
          { quantity := 12000, temperature := 20 } 50
          { pressure := 200, temperature := 382 } defaultParams).steam.temperature) ∧
    (0 ≤ (boiler { type := "wood", quantity := 1000, heatContent := 8000 }
          { quantity := 34500, temperature := 20 }
          { quantity := 12000, temperature := 20 } 50
          { pressure := 200, temperature := 382 } defaultParams).flueGases.volume ∧
      0 ≤ (boiler { type := "wood", quantity := 1000, heatContent := 8000 }
          { quantity := 34500, temperature := 20 }
          { quantity := 12000, temperature := 20 } 50
          { pressure := 200, temperature := 382 } defaultParams).flueGases.temp ∧
      0 ≤ (boiler { type := "wood", quantity := 1000, heatContent := 8000 }
          { quantity := 34500, temperature := 20 }
          { quantity := 12000, temperature := 20 } 50
          { pressure := 200, temperature := 382 } defaultParams).flueGases.composition.CO2 ∧
      0 ≤ (boiler { type := "wood", quantity := 1000, heatContent := 8000 }
          { quantity := 34500, temperature := 20 }
          { quantity := 12000, temperature := 20 } 50
          { pressure := 200, temperature := 382 } defaultParams).flueGases.composition.H2O ∧
      0 ≤ (boiler { type := "wood", quantity := 1000, heatContent := 8000 }
          { quantity := 34500, temperature := 20 }
          { quantity := 12000, temperature := 20 } 50
          { pressure := 200, temperature := 382 } defaultParams).flueGases.composition.O2 ∧
      0 ≤ (boiler { type := "wood", quantity := 1000, heatContent := 8000 }
          { quantity := 34500, temperature := 20 }
          { quantity := 12000, temperature := 20 } 50
          { pressure := 200, temperature := 382 } defaultParams).flueGases.composition.N2) ∧
    0 ≤ (boiler { type := "wood", quantity := 1000, heatContent := 8000 }
          { quantity := 34500, temperature := 20 }
          { quantity := 12000, temperature := 20 } 50
          { pressure := 200, temperature := 382 } defaultParams).wasteHeat ∧
    (0 ≤ (boiler { type := "wood", quantity := 1000, heatContent := 8000 }
          { quantity := 34500, temperature := 20 }
          { quantity := 12000, temperature := 20 } 50
          { pressure := 200, temperature := 382 } defaultParams).emissions.CO ∧
      0 ≤ (boiler { type := "wood", quantity := 1000, heatContent := 8000 }
          { quantity := 34500, temperature := 20 }
          { quantity := 12000, temperature := 20 } 50
          { pressure := 200, temperature := 382 } defaultParams).emissions.NOx)) :=
  ⟨⟨by norm_num, by norm_num, by norm_num, by norm_num, by norm_num [defaultParams],
      by norm_num [calculateSensibleHeat, calculateSteamTemp, getLatentHeat]⟩,
    C9_nonneg_amended _ _ _ _ _ _ (by norm_num) (by norm_num) (by norm_num)
      (by norm_num) (by norm_num [defaultParams])
      (by norm_num [calculateSensibleHeat, calculateSteamTemp, getLatentHeat])⟩

end BoilerSim
